import Mathlib

/-!
Verification of the Role Coordination and Promotion subsystem of the
ec2cluster repository (src/ec2cluster/base.py), in a shallow embedding.

The naming namespace is modelled as follows: the exclusive master CNAME
record for this cluster is an `Option String` (the address the single
CNAME value points at, or `none` when the record is absent), and the
weighted replica pool is a `List PoolEntry`.  DNS lookups, Route53 change
batches, PostgreSQL connections/queries and the local promotion command
are external collaborators; each one is represented by the data the Python
code actually inspects about its outcome (answers vs. NXDOMAIN vs. other
resolver failure; server-error message strings; query result strings;
command output).  Python exceptions are modelled with `Except`:
`Except.error` means the Python function raised.
-/

namespace Ec2Cluster

/-- Python's `str.endswith`, on the character sequences of the strings:
used by the code to classify error messages and command output. -/
def pyEndsWith (s pat : String) : Bool :=
  pat.data.isSuffixOf s.data

/-- Role constants of `BaseCluster` (`MASTER = 'master'`). -/
def MASTER : String := "master"

/-- Role constant of `BaseCluster` (`SLAVE = 'slave'`). -/
def SLAVE : String := "slave"

/-- Outcome of `dns.resolver.query(self.master_cname, 'CNAME')` as the code
observes it: the query raised `NXDOMAIN`, returned a (non-empty) answer
rrset, or raised some other resolver exception carrying a message. -/
inductive DnsAnswer where
  | nxdomain : DnsAnswer
  | answers (values : List String) : DnsAnswer
  | failure (msg : String) : DnsAnswer
deriving DecidableEq, Repr

/-- The DNS answer produced by a naming state in which the master CNAME
binding is `binding` and the lookup itself does not fail transiently:
an absent record raises NXDOMAIN, a present record returns its value. -/
def queryMaster : Option String → DnsAnswer
  | none => DnsAnswer.nxdomain
  | some v => DnsAnswer.answers [v]

/-- Embedding of `BaseCluster.determine_role` (base.py lines 159-172).
The code wraps the DNS query in `try`, catches only
`dns.resolver.NXDOMAIN` (returning `self.MASTER`), and returns
`self.SLAVE` from the `else` branch when the query succeeded; any other
resolver exception propagates to the caller uncaught. -/
def determine_role : DnsAnswer → Except String String
  | DnsAnswer.nxdomain => Except.ok MASTER
  | DnsAnswer.answers _ => Except.ok SLAVE
  | DnsAnswer.failure msg => Except.error msg

/-- Keys of the dispatch dictionary built by `BaseCluster.get_roles`
(base.py lines 128-132): `{self.MASTER: prepare_master, self.SLAVE:
prepare_slave}`. -/
def get_roles : List String := [MASTER, SLAVE]

/-- Errors that `BaseCluster.initialise` can raise while resolving and
dispatching the role: a propagated DNS-lookup failure, or the
`Exception('Unrecognised role: ...')` of the `else` branch. -/
inductive InitError where
  | resolutionFailed (msg : String) : InitError
  | unrecognisedRole (role : String) : InitError
deriving DecidableEq, Repr

/-- Embedding of the role-dispatch prefix of `BaseCluster.initialise`
(base.py lines 134-143): call `determine_role`, then look the result up
in `self.roles`; if it is a key, dispatch succeeds (we return the role),
otherwise raise the unrecognised-role exception. -/
def initialise_dispatch (q : DnsAnswer) : Except InitError String :=
  match determine_role q with
  | Except.error msg => Except.error (InitError.resolutionFailed msg)
  | Except.ok role =>
      if role ∈ get_roles then Except.ok role
      else Except.error (InitError.unrecognisedRole role)

/-- One change of a Route53 `ResourceRecordSets` batch, restricted to the
master CNAME record: the code issues `DELETE` with the currently observed
value and `CREATE` with the new value. -/
inductive Change where
  | delete (value : String) : Change
  | create (value : String) : Change
deriving DecidableEq, Repr

/-- Route53 semantics of a single change against the master CNAME record:
a DELETE must name the existing value exactly, a CREATE requires the
record to be absent; otherwise the change batch is rejected with a
server error. -/
def applyChange (binding : Option String) : Change → Except String (Option String)
  | Change.delete v =>
      if binding = some v then Except.ok none
      else Except.error "tried to delete resource record set but it was not found"
  | Change.create v =>
      match binding with
      | none => Except.ok (some v)
      | some _ => Except.error "tried to create resource record set but it already exists"

/-- Route53 semantics of `changes.commit()` for the master CNAME: the
changes are validated and applied as one atomic batch. -/
def commitChanges (binding : Option String) : List Change → Except String (Option String)
  | [] => Except.ok binding
  | c :: cs =>
      match applyChange binding c with
      | Except.error msg => Except.error msg
      | Except.ok b => commitChanges b cs

/-- The change batch that `EC2Mixin.acquire_master_cname` (base.py lines
26-60) builds, or the exception it raises before touching Route53: if the
DNS query raised NXDOMAIN the batch is a single CREATE of this instance's
public hostname; if a record exists and `force` is false the function
raises before any Route53 connection is made; if a record exists and
`force` is true the batch is a DELETE of the observed old value followed
by the CREATE. -/
def acquire_changes (binding : Option String) (host : String) (force : Bool) :
    Except String (List Change) :=
  match binding with
  | none => Except.ok [Change.create host]
  | some old =>
      if force = false then
        Except.error "CNAME exists and force is False - not taking the CNAME"
      else
        Except.ok [Change.delete old, Change.create host]

/-- Embedding of `EC2Mixin.acquire_master_cname`: returns the master CNAME
binding after the call together with the call's outcome.  `Except.error`
means the Python function raised; the binding component is unchanged both
when the function raises before committing and when the atomic Route53
batch is rejected. -/
def acquire_master_cname (binding : Option String) (host : String) (force : Bool) :
    Option String × Except String Unit :=
  match acquire_changes binding host force with
  | Except.error msg => (binding, Except.error msg)
  | Except.ok cs =>
      match commitChanges binding cs with
      | Except.ok b => (b, Except.ok ())
      | Except.error msg => (binding, Except.error msg)

/-- One weighted resource record of the replica CNAME pool, as created by
`EC2Mixin.add_to_slave_cname_pool`: Route53 distinguishes entries under the
same pool name by `identifier` (the instance id); the value is the
instance's public hostname and the weight is the literal string written by
the code. -/
structure PoolEntry where
  identifier : String
  value : String
  weight : String
deriving DecidableEq, Repr

/-- Route53 semantics of committing the pool CREATE change built by
`add_to_slave_cname_pool`: `serverFault` injects an arbitrary
`DNSServerError` unrelated to this record (the commit fails with that
message); otherwise the CREATE is rejected when an entry with the same
identifier already exists, and appends the entry when not. -/
def commitPoolCreate (pool : List PoolEntry) (e : PoolEntry)
    (serverFault : Option String) : Except String (List PoolEntry) :=
  match serverFault with
  | some msg => Except.error msg
  | none =>
      if pool.any (fun x => x.identifier = e.identifier) then
        Except.error "tried to create resource record set but it already exists"
      else
        Except.ok (pool ++ [e])

/-- Embedding of `EC2Mixin.add_to_slave_cname_pool` (base.py lines 62-88):
build a CREATE change with weight `'10'` and `identifier =
metadata['instance-id']`, commit it, and catch `DNSServerError`: when the
error message ends with `'it already exists'` the error is swallowed (the
instance is already in the pool, carry on); any other server error is
re-raised.  Returns the pool after the call, or the propagated error. -/
def add_to_slave_cname_pool (pool : List PoolEntry) (instanceId host : String)
    (serverFault : Option String) : Except String (List PoolEntry) :=
  match commitPoolCreate pool ⟨instanceId, host, "10"⟩ serverFault with
  | Except.ok p => Except.ok p
  | Except.error msg =>
      if pyEndsWith msg "it already exists" then Except.ok pool
      else Except.error msg

/-- Embedding of `BaseCluster.release_master_cname` (base.py lines
189-193).  Its docstring documents "Deletes the master CNAME if it is
pointing to this instance. Called when the master process fails to
start.", but the body unconditionally raises `NotImplementedError`, and
no subclass or mixin in the repository overrides it.  The call therefore
raises on every naming state, leaving the binding unchanged. -/
def release_master_cname (binding : Option String) : Option String × Except String Unit :=
  (binding, Except.error "NotImplementedError")

/-- Result of one `cur.execute(...)` / `cur.fetchone()` round-trip as the
code inspects it: either the fetched value (compared as a string by the
code) or a raised `psycopg2.OperationalError`. -/
inductive QueryRes where
  | ok (res : String) : QueryRes
  | opError : QueryRes
deriving DecidableEq, Repr

/-- Embedding of `PostgresqlCluster.check_master` (base.py lines 322-350).
`connOk` is whether `psycopg2.connect(host=master_cname)` succeeded (a
failure raises `OperationalError`, which the function catches and turns
into `False`).  `recQ` is the outcome of `SELECT pg_is_in_recovery()` and
`oneQ` of the subsequent `SELECT 1`; an `OperationalError` raised by
either query propagates out of `check_master` (`Except.error`).  The
fetched results are compared as the code compares them: recovery result
equal to the string `'t'` means the remote believes it is a slave, and
only a `SELECT 1` result equal to the string `'1'` yields `True`. -/
def check_master (connOk : Bool) (recQ oneQ : QueryRes) : Except Unit Bool :=
  if connOk = false then Except.ok false
  else
    match recQ with
    | QueryRes.opError => Except.error ()
    | QueryRes.ok r =>
        if r = "t" then Except.ok false
        else
          match oneQ with
          | QueryRes.opError => Except.error ()
          | QueryRes.ok o =>
              if o = "1" then Except.ok true else Except.ok false

/-- Outcome of `subprocess.check_output(promote_cmd ...)`: success, or a
`CalledProcessError` carrying the combined stdout/stderr output. -/
inductive CmdResult where
  | success (out : String) : CmdResult
  | failed (out : String) : CmdResult
deriving DecidableEq, Repr

/-- Observable result of `PostgresqlCluster.promote`: the early `return`
taken when an active master exists and `force` is false (blocked, nothing
run); normal fall-through after a successful promotion command; the
`Exception(e.output)` raised when the command output ends with
`'server is not in standby mode\n'`; or the re-raised
`CalledProcessError` for any other command failure. -/
inductive PromoteResult where
  | blocked : PromoteResult
  | promoted : PromoteResult
  | notAReplica (out : String) : PromoteResult
  | commandFailed (out : String) : PromoteResult
deriving DecidableEq, Repr

/-- A run of `promote`: its observable result together with how many times
the local promotion command was executed during the call. -/
structure PromoteRun where
  result : PromoteResult
  cmdRuns : Nat
deriving DecidableEq, Repr

/-- External observations made by one call to `promote`: the connection
and query outcomes consumed by `check_master`, and the outcome the local
promotion command would have if executed. -/
structure PromoteEnv where
  connOk : Bool
  recQ : QueryRes
  oneQ : QueryRes
  cmd : CmdResult
deriving DecidableEq, Repr

/-- The `active_master` local variable of `promote`: `check_master` is
called inside a `try` that catches `psycopg2.OperationalError` and sets
`active_master = False`; otherwise the check's return value is used. -/
def active_master_flag (env : PromoteEnv) : Bool :=
  match check_master env.connOk env.recQ env.oneQ with
  | Except.error _ => false
  | Except.ok b => b

/-- Embedding of `PostgresqlCluster.promote` (base.py lines 365-403).
When `active_master` is true and `force` is false the function returns
without building or running the promotion command.  Otherwise the command
is run exactly once: on `CalledProcessError` whose output ends with
`'server is not in standby mode\n'` it raises `Exception(e.output)`
(surfacing NotAReplica), on any other `CalledProcessError` it re-raises,
and on success it falls through to `configure_cron_backup`. -/
def promote (env : PromoteEnv) (force : Bool) : PromoteRun :=
  if active_master_flag env && !force then
    ⟨PromoteResult.blocked, 0⟩
  else
    match env.cmd with
    | CmdResult.success _ => ⟨PromoteResult.promoted, 1⟩
    | CmdResult.failed out =>
        if pyEndsWith out "server is not in standby mode\n" then
          ⟨PromoteResult.notAReplica out, 1⟩
        else
          ⟨PromoteResult.commandFailed out, 1⟩

/-- C1: for every namespace state, when no master CNAME binding exists
`determine_role` returns MASTER (the PRIMARY role), and when any binding
exists it returns SLAVE (the REPLICA role), regardless of which address
the binding points to. -/
theorem C1_role_from_binding :
    determine_role (queryMaster none) = Except.ok MASTER ∧
    ∀ v : String, determine_role (queryMaster (some v)) = Except.ok SLAVE := by
  exact ⟨rfl, fun _ => rfl⟩

/-- C2: when a master CNAME binding already exists, `acquire_master_cname`
with `force = false` raises (the AlreadyClaimed error) and the binding is
left exactly as it was; no Route53 change is committed on that call. -/
theorem C2_claim_noforce_fails (binding : Option String) (old host : String)
    (h : binding = some old) :
    acquire_master_cname binding host false =
      (binding, Except.error "CNAME exists and force is False - not taking the CNAME") := by
  subst h
  rfl

/-- C2 witness: concrete prior binding, the failing call leaves it
unmodified and reports the error. -/
theorem C2_claim_noforce_fails_witness :
    (some "a.example.com" : Option String) = some "a.example.com" ∧
    acquire_master_cname (some "a.example.com") "b.example.com" false =
      (some "a.example.com",
        Except.error "CNAME exists and force is False - not taking the CNAME") :=
  ⟨rfl, C2_claim_noforce_fails (some "a.example.com") "a.example.com" "b.example.com" rfl⟩

/-- C4: for every prior binding state, `acquire_master_cname` with
`force = true` succeeds and ends with exactly one binding pointing at the
claiming node's address; calling it twice yields the same end state. -/
theorem C4_force_claim_idempotent (binding : Option String) (host : String) :
    acquire_master_cname binding host true = (some host, Except.ok ()) ∧
    acquire_master_cname (acquire_master_cname binding host true).1 host true =
      (some host, Except.ok ()) := by
  cases binding <;>
    simp [acquire_master_cname, acquire_changes, commitChanges, applyChange]

/-- C7: evaluating the code at the failing inputs — with a binding
present (here "a.example.com") the release operation raises
`NotImplementedError` and leaves the binding in place instead of deleting
it, and with no binding present it raises instead of succeeding as a
no-op, contradicting the method's own docstring and the claim. -/
theorem C7_release_raises_not_implemented :
    release_master_cname (some "a.example.com") =
      (some "a.example.com", Except.error "NotImplementedError") ∧
    release_master_cname none = (none, Except.error "NotImplementedError") :=
  ⟨rfl, rfl⟩

/-- C8: during role resolution, a naming lookup failure other than
not-found is surfaced to the caller as an error, never interpreted as "no
binding exists"; the MASTER (PRIMARY) role is produced exactly on the
not-found (NXDOMAIN) outcome. -/
theorem C8_lookup_failure_surfaced :
    (∀ msg : String, determine_role (DnsAnswer.failure msg) = Except.error msg) ∧
    (∀ q : DnsAnswer, determine_role q = Except.ok MASTER ↔ q = DnsAnswer.nxdomain) := by
  refine ⟨fun _ => rfl, fun q => ?_⟩
  cases q <;> simp [determine_role, MASTER, SLAVE]

/-- C10: the unrecognised-role branch of `initialise` is unreachable: for
every DNS outcome, the dispatch either succeeds on a role that is a key
of the mapping built by `get_roles`, or propagates the lookup failure; it
never raises the unknown-role exception. -/
theorem C10_unknown_role_unreachable (q : DnsAnswer) :
    (∃ role, initialise_dispatch q = Except.ok role ∧ role ∈ get_roles) ∨
    (∃ msg, initialise_dispatch q = Except.error (InitError.resolutionFailed msg)) := by
  cases q <;> simp [initialise_dispatch, determine_role, get_roles]

/-- C3: whenever the active-primary check reports a reachable remote node
that believes it is primary (`check_master` returns true) and `force` is
false, `promote` returns the blocked outcome and executes the local
promotion command zero times. -/
theorem C3_active_primary_blocks (env : PromoteEnv)
    (h : check_master env.connOk env.recQ env.oneQ = Except.ok true) :
    promote env false = ⟨PromoteResult.blocked, 0⟩ := by
  simp [promote, active_master_flag, h]

/-- C3 witness: a reachable master that is not in recovery and answers the
liveness probe blocks an unforced promotion. -/
theorem C3_active_primary_blocks_witness :
    check_master true (QueryRes.ok "f") (QueryRes.ok "1") = Except.ok true ∧
    promote ⟨true, QueryRes.ok "f", QueryRes.ok "1", CmdResult.success ""⟩ false =
      ⟨PromoteResult.blocked, 0⟩ :=
  ⟨rfl, C3_active_primary_blocks ⟨true, QueryRes.ok "f", QueryRes.ok "1", CmdResult.success ""⟩ rfl⟩

/-- C6: when the guard does not block and the local promotion command
fails with output ending in the not-in-standby message, `promote` surfaces
the NotAReplica outcome and the command is executed exactly once (no
retry). -/
theorem C6_not_in_standby (env : PromoteEnv) (force : Bool) (out : String)
    (hguard : (active_master_flag env && !force) = false)
    (hcmd : env.cmd = CmdResult.failed out)
    (hout : pyEndsWith out "server is not in standby mode\n" = true) :
    promote env force = ⟨PromoteResult.notAReplica out, 1⟩ := by
  simp [promote, hguard, hcmd, hout]

/-- C6 witness: with no reachable master and a command failure reporting
standby-mode absence, the outcome is NotAReplica after a single run. -/
theorem C6_not_in_standby_witness :
    (active_master_flag ⟨false, QueryRes.ok "t", QueryRes.ok "1",
        CmdResult.failed "pg_ctl: server is not in standby mode\n"⟩ && !false) = false ∧
    promote ⟨false, QueryRes.ok "t", QueryRes.ok "1",
        CmdResult.failed "pg_ctl: server is not in standby mode\n"⟩ false =
      ⟨PromoteResult.notAReplica "pg_ctl: server is not in standby mode\n", 1⟩ :=
  ⟨rfl, C6_not_in_standby ⟨false, QueryRes.ok "t", QueryRes.ok "1",
      CmdResult.failed "pg_ctl: server is not in standby mode\n"⟩ false
      "pg_ctl: server is not in standby mode\n" rfl rfl (by decide)⟩

/-- C9: when connecting to the master CNAME fails during the
active-primary check, an unforced `promote` treats it as "no active
primary" and proceeds to issue the local promotion command exactly once
rather than blocking. -/
theorem C9_conn_failure_proceeds (env : PromoteEnv) (h : env.connOk = false) :
    (promote env false).cmdRuns = 1 ∧ (promote env false).result ≠ PromoteResult.blocked := by
  have hflag : active_master_flag env = false := by
    simp [active_master_flag, check_master, h]
  rcases hc : env.cmd with out | out
  · simp [promote, hflag, hc]
  · simp [promote, hflag, hc]
    split <;> simp

/-- C9 witness: a concrete connection failure leads to the promotion
command being run. -/
theorem C9_conn_failure_proceeds_witness :
    (⟨false, QueryRes.ok "t", QueryRes.ok "1", CmdResult.success ""⟩ : PromoteEnv).connOk
        = false ∧
    (promote ⟨false, QueryRes.ok "t", QueryRes.ok "1", CmdResult.success ""⟩ false).cmdRuns
        = 1 :=
  ⟨rfl, (C9_conn_failure_proceeds
      ⟨false, QueryRes.ok "t", QueryRes.ok "1", CmdResult.success ""⟩ rfl).1⟩

/-- Route53's already-exists rejection message ends with the suffix the
code tests for. -/
theorem alreadyExists_suffix :
    pyEndsWith "tried to create resource record set but it already exists"
      "it already exists" = true := by
  decide

/-- C5: replica-pool registration is idempotent.  When the naming service
rejects the create because an entry with the same identifier exists, the
call succeeds and the pool is unchanged; any rejection whose message does
not end with the already-exists marker propagates; and on a pool without
the identifier, registering adds the entry, registering again succeeds
without change, leaving exactly one entry for that identifier. -/
theorem C5_registration_idempotent (pool : List PoolEntry) (id host : String) :
    (pool.any (fun x => x.identifier = id) = true →
      add_to_slave_cname_pool pool id host none = Except.ok pool) ∧
    (∀ msg : String, pyEndsWith msg "it already exists" = false →
      add_to_slave_cname_pool pool id host (some msg) = Except.error msg) ∧
    (pool.any (fun x => x.identifier = id) = false →
      add_to_slave_cname_pool pool id host none =
        Except.ok (pool ++ [⟨id, host, "10"⟩]) ∧
      add_to_slave_cname_pool (pool ++ [⟨id, host, "10"⟩]) id host none =
        Except.ok (pool ++ [⟨id, host, "10"⟩]) ∧
      (pool ++ [(⟨id, host, "10"⟩ : PoolEntry)]).countP (fun x => x.identifier = id) = 1) := by
  refine ⟨fun h => ?_, fun msg hmsg => ?_, fun h => ⟨?_, ?_, ?_⟩⟩
  · simp [add_to_slave_cname_pool, commitPoolCreate, h, alreadyExists_suffix]
  · simp [add_to_slave_cname_pool, commitPoolCreate, hmsg]
  · simp [add_to_slave_cname_pool, commitPoolCreate, h]
  · simp [add_to_slave_cname_pool, commitPoolCreate, h, alreadyExists_suffix]
  · have h0 : pool.countP (fun x => decide (x.identifier = id)) = 0 := by
      rw [List.countP_eq_zero]
      intro a ha
      simpa using List.any_eq_false.mp h a ha
    simp [List.countP_append, h0]

/-- C5 witness: a concrete pool already holding the identifier is left
unchanged by a swallowed already-exists rejection; an unrelated rejection
propagates; a fresh registration appends the entry. -/
theorem C5_registration_idempotent_witness :
    add_to_slave_cname_pool [⟨"i-123", "h0", "10"⟩] "i-123" "h1" none =
      Except.ok [⟨"i-123", "h0", "10"⟩] ∧
    add_to_slave_cname_pool [] "i-123" "h1" (some "rate exceeded") =
      Except.error "rate exceeded" ∧
    add_to_slave_cname_pool [] "i-123" "h1" none = Except.ok [⟨"i-123", "h1", "10"⟩] :=
  ⟨(C5_registration_idempotent [⟨"i-123", "h0", "10"⟩] "i-123" "h1").1 (by decide),
   (C5_registration_idempotent [] "i-123" "h1").2.1 "rate exceeded" (by decide),
   ((C5_registration_idempotent [] "i-123" "h1").2.2 (by decide)).1⟩

end Ec2Cluster
